import Mathlib

/-!
Shallow embedding of the bare-metal provisioning pipeline
(poc/services/*, poc/lib/netbox_client.py, poc/lib/redfish_client.py,
poc/config.py) and proofs about its lifecycle, discovery, provisioning,
validation-callback, hardening and monitoring behaviour.

The Inventory Service (NetBox) is modelled as explicit state; every HTTP
call of the NetBox client becomes a pure function on that state.  A POST
that the service would reject with a 4xx/5xx status, and hence a
`raise_for_status` exception in the client, is modelled with `Option`:
`none` is the raised exception, handled exactly where the Python code
handles it.  The out-of-band controller (Redfish) is modelled as an
oracle of per-endpoint results, `Except Unit` for calls that can raise.
-/

namespace PoC

/-- Lifecycle state names from poc/config.py. -/
def STATE_OFFLINE : String := "offline"

def STATE_PLANNED : String := "planned"

def STATE_VALIDATING : String := "validating"

def STATE_VALIDATED : String := "validated"

def STATE_HARDENING : String := "hardening"

def STATE_STAGED : String := "staged"

def STATE_READY : String := "ready"

def STATE_MONITORED : String := "monitored"

def STATE_ERROR : String := "error"

/-- Queue names from poc/config.py. -/
def QUEUE_DHCP_LEASE : String := "bm:events:dhcp_lease"

def QUEUE_DEVICE_DISCOVERED : String := "bm:events:device_discovered"

def QUEUE_PXE_BOOT_INITIATED : String := "bm:events:pxe_boot_initiated"

def QUEUE_VALIDATION_COMPLETED : String := "bm:events:validation_completed"

def QUEUE_HARDENING_COMPLETED : String := "bm:events:hardening_completed"

/-- Python truthiness of an optional string (`if not x` is taken for
`None` and for the empty string). -/
def truthy : Option String → Bool
  | some s => s ≠ ""
  | none => false

/-- Python `f"{x}"` applied to a `str | None` value. -/
def optStr : Option String → String
  | some s => s
  | none => "None"

/-- Membership of one character list inside another (helper for the
Python `in` test). -/
def containsSub (pat : List Char) : List Char → Bool
  | [] => pat.isEmpty
  | c :: t => pat.isPrefixOf (c :: t) || containsSub pat t

/-- Python `s.lower()` over the ASCII range. -/
def pyLower (s : String) : String :=
  ⟨s.data.map (fun c => if 65 ≤ c.toNat ∧ c.toNat ≤ 90 then Char.ofNat (c.toNat + 32) else c)⟩

/-- Python `s.split(sep)[0]`: the prefix before the first separator. -/
def pySplitFirst (s : String) (c : Char) : String :=
  ⟨s.data.takeWhile (fun a => a ≠ c)⟩

/-- Substring test (`pat in s` in Python). -/
def strContains (s pat : String) : Bool := containsSub pat.data s.data

/-- Python `int(s)` for a decimal string, `none` modelling the raised
`ValueError`. -/
def pyParseNat (s : String) : Option Nat :=
  if s.data ≠ [] ∧ s.data.all (fun c => c.isDigit) then
    some (s.data.foldl (fun n c => n * 10 + (c.toNat - 48)) 0)
  else none

/-- An interface embedded in a device record, as the hardening worker
reads it from `device.get('interfaces', [])` (`mgmt_only` flag, name). -/
structure DevIface where
  name : String
  mgmt_only : Bool := false
deriving Repr, DecidableEq

/-- A NetBox device, restricted to the fields the pipeline reads and
writes.  `lifecycle_state`, the timestamps and `last_power_watts` are
NetBox custom fields, absent (`none`) until the pipeline sets them.
`primary_ip4` holds the address string with mask, as the workers read
`device['primary_ip4']['address']`. -/
structure Device where
  id : Nat
  name : String
  lifecycle_state : Option String := none
  discovered_at : Option String := none
  pxe_boot_initiated_at : Option String := none
  hardened_at : Option String := none
  last_monitored_at : Option String := none
  last_power_watts : Option Nat := none
  comments : Option String := none
  primary_ip4 : Option String := none
  interfaces : List DevIface := []
deriving Repr, DecidableEq

/-- A NetBox interface record as returned by `dcim/interfaces/`:
the `device` field is the brief serialization (id, name). -/
structure Iface where
  id : Nat
  name : String
  device : Option (Nat × String) := none
  mac_address : String
deriving Repr, DecidableEq

/-- A NetBox IP-address record (`ipam/ip-addresses/`): address with
mask, assigned to one interface. -/
structure IpRecord where
  address : String
  interface_id : Nat
deriving Repr, DecidableEq

/-- The Inventory Service state. -/
structure Inventory where
  devices : List Device
  interfaces : List Iface
  ip_addresses : List IpRecord := []
deriving Repr, DecidableEq

/-- A pipeline event as published to a Redis queue: event type,
timestamp and the `data` payload fields the stages use. -/
structure PipeEvent where
  event_type : String
  timestamp : String
  device_id : Option Nat := none
  device_name : Option String := none
  ip : Option String := none
  mac : Option String := none
deriving Repr, DecidableEq

/-- Fields of a PATCH to `dcim/devices/{id}/`: a `some` field is
written, a `none` field is left untouched. -/
structure DevicePatch where
  lifecycle_state : Option String := none
  discovered_at : Option String := none
  pxe_boot_initiated_at : Option String := none
  hardened_at : Option String := none
  last_monitored_at : Option String := none
  last_power_watts : Option Nat := none
  comments : Option String := none
deriving Repr, DecidableEq

/-- Overwrite-if-present semantics of one PATCH field. -/
def patchField {α : Type} (p : Option α) (d : Option α) : Option α :=
  match p with
  | some v => some v
  | none => d

/-- Apply a PATCH to a device record. -/
def applyPatch (d : Device) (p : DevicePatch) : Device :=
  { d with
    lifecycle_state := patchField p.lifecycle_state d.lifecycle_state
    discovered_at := patchField p.discovered_at d.discovered_at
    pxe_boot_initiated_at := patchField p.pxe_boot_initiated_at d.pxe_boot_initiated_at
    hardened_at := patchField p.hardened_at d.hardened_at
    last_monitored_at := patchField p.last_monitored_at d.last_monitored_at
    last_power_watts := patchField p.last_power_watts d.last_power_watts
    comments := patchField p.comments d.comments }

/-- Power metrics as returned by `RedfishClient.get_power_metrics`. -/
structure PowerMetrics where
  consumed_watts : Nat
  capacity_watts : Nat
  power_supplies : List (String × String)
deriving Repr, DecidableEq

/-- Thermal metrics as returned by `RedfishClient.get_thermal_metrics`. -/
structure ThermalMetrics where
  avg_temp_celsius : ℚ
  max_temp_celsius : ℤ
  sensors : List (String × ℤ × String)
  fans : List (String × ℤ × String)
deriving Repr, DecidableEq

/-- CPU summary as returned by `RedfishClient.get_cpu_info`. -/
structure CpuInfo where
  count : Nat
  model : String
  health : String
deriving Repr, DecidableEq

/-- Memory summary as returned by `RedfishClient.get_memory_info`. -/
structure MemoryInfo where
  total_gb : Nat
  health : String
deriving Repr, DecidableEq

/-- One immutable metrics document, written by the monitoring worker as
one JSON file per device per poll. -/
structure MetricsDoc where
  device_id : Nat
  device_name : String
  timestamp : String
  cpu : CpuInfo
  memory : MemoryInfo
  power : PowerMetrics
  thermal : ThermalMetrics
deriving Repr, DecidableEq

/-- The observable world state threaded through the stages: the
Inventory Service, the dedicated error-log file (config.ERROR_LOG),
everything published to queues (queue name, event, in order), the
metrics files, and an audit trail of every `lifecycle_state` write
(value before, value written). -/
structure Sys where
  inv : Inventory
  errorLog : List String := []
  queues : List (String × PipeEvent) := []
  metricsFiles : List MetricsDoc := []
  stateWrites : List (Option String × String) := []
deriving Repr, DecidableEq

/-! ## NetBox client operations (poc/lib/netbox_client.py) -/

/-- `NetBoxClient.find_interface_by_mac`: GET `dcim/interfaces/`
filtered by `mac_address`, returning `results[0]` or `None` (exact
match; NetBox stores and matches MACs case/delimiter-normalized, and
both the inventory and the DHCP events of this repository carry them in
the same normalized form).  When the Python value is `None`, `requests`
drops the query parameter and the unfiltered first interface comes
back. -/
def find_interface_by_mac (inv : Inventory) (mac : Option String) : Option Iface :=
  match mac with
  | some m => (inv.interfaces.filter (fun i => i.mac_address == m)).head?
  | none => inv.interfaces.head?

/-- `NetBoxClient.get_device` lookup (a 404 is `none`, i.e. the raised
`HTTPError`). -/
def findDevice (inv : Inventory) (did : Nat) : Option Device :=
  inv.devices.find? (fun d => d.id == did)

/-- `NetBoxClient.update_device`: PATCH the device, `none` when the
device does not exist (`raise_for_status`).  Every write of the
`lifecycle_state` custom field is recorded in the audit trail. -/
def update_device (σ : Sys) (did : Nat) (p : DevicePatch) : Option Sys :=
  match findDevice σ.inv did with
  | none => none
  | some d =>
      some { σ with
        inv := { σ.inv with
          devices := σ.inv.devices.map (fun e => if e.id == did then applyPatch e p else e) }
        stateWrites := σ.stateWrites ++
          (match p.lifecycle_state with
           | some s => [(d.lifecycle_state, s)]
           | none => []) }

/-- `NetBoxClient.set_device_state` (via `set_device_custom_field`). -/
def set_device_state (σ : Sys) (did : Nat) (s : String) : Option Sys :=
  update_device σ did { lifecycle_state := some s }

/-- `NetBoxClient.assign_ip_to_interface`: an unconditional POST to
`ipam/ip-addresses/` — it creates a new IP record; there is no lookup
and no in-place update.  NetBox in its default configuration (and the
configuration shipped in this repository) permits duplicate addresses,
so the create succeeds again on a replay and a second record appears. -/
def assign_ip_to_interface (inv : Inventory) (interface_id : Nat) (ip_address : String) : Inventory :=
  { inv with ip_addresses := inv.ip_addresses ++ [{ address := ip_address, interface_id := interface_id }] }

/-- `NetBoxClient.create_or_update_interface`: find by device id and
name; PATCH the MAC if found, otherwise POST a fresh interface. -/
def create_or_update_interface (inv : Inventory) (did : Nat) (dname : String)
    (name : String) (mac : String) : Inventory :=
  match inv.interfaces.find? (fun i =>
      (match i.device with
       | some (d, _) => d == did
       | none => false) && i.name == name) with
  | some i =>
      { inv with interfaces := inv.interfaces.map (fun j =>
          if j.id == i.id then { j with mac_address := mac } else j) }
  | none =>
      { inv with interfaces := inv.interfaces ++
          [{ id := (inv.interfaces.map Iface.id).foldr Nat.max 0 + 1
             name := name
             device := some (did, dname)
             mac_address := mac }] }

/-- `Queue.publish`: RPUSH of the serialized event. -/
def publish (σ : Sys) (q : String) (ev : PipeEvent) : Sys :=
  { σ with queues := σ.queues ++ [(q, ev)] }

/-! ## Discovery worker (poc/services/discovery_worker.py) -/

/-- The `data` payload of a DHCP lease event. -/
structure LeaseData where
  ip : Option String := none
  mac : Option String := none
  hostname : Option String := none
deriving Repr, DecidableEq

/-- `log_mac_not_found`: the structured line appended to the dedicated
error log (config.ERROR_LOG). -/
def mac_not_found_line (ts : String) (mac ip : Option String) : String :=
  ts ++ " | MAC_NOT_FOUND | mac=" ++ optStr mac ++ " | ip=" ++ optStr ip ++ "\n"

/-- `discovery_worker.process_dhcp_event`.  Unresolvable MAC: log to the
error file and drop.  Resolved: POST the observed IP with a `/24` mask
to the interface (the surrounding `try/except` in the source only
matters when the create fails; see `assign_ip_to_interface`), PATCH the
device to state `planned` stamping `discovered_at`, publish a
`device_discovered` event.  An exception from the device PATCH is
caught by the outer handler, keeping the effects already applied. -/
def process_dhcp_event (ts : String) (ev : LeaseData) (σ : Sys) : Sys :=
  match find_interface_by_mac σ.inv ev.mac with
  | none => { σ with errorLog := σ.errorLog ++ [mac_not_found_line ts ev.mac ev.ip] }
  | some iface =>
      match iface.device with
      | none => σ
      | some (device_id, device_name) =>
          let ip_with_mask := optStr ev.ip ++ "/24"
          let σ₁ := { σ with inv := assign_ip_to_interface σ.inv iface.id ip_with_mask }
          match update_device σ₁ device_id
              { lifecycle_state := some STATE_PLANNED, discovered_at := some ts } with
          | none => σ₁
          | some σ₂ =>
              publish σ₂ QUEUE_DEVICE_DISCOVERED
                { event_type := "device_discovered", timestamp := ts
                  device_id := some device_id, device_name := some device_name
                  ip := ev.ip, mac := ev.mac }

/-! ## Redfish client (poc/lib/redfish_client.py) -/

/-- Fields of `GET /redfish/v1/Systems/1` that the pipeline reads. -/
structure SystemInfo where
  PowerState : Option String := none
  Manufacturer : Option String := none
  Model : Option String := none
  cpu_count : Option Nat := none
  cpu_model : Option String := none
  cpu_health : Option String := none
  memory_total_gb : Option Nat := none
  memory_health : Option String := none
deriving Repr, DecidableEq

/-- One entry of the `PowerControl` array of `/Chassis/1/Power`. -/
structure PowerCtl where
  PowerConsumedWatts : Option Nat := none
  PowerCapacityWatts : Option Nat := none
deriving Repr, DecidableEq

/-- One entry of the `PowerSupplies` array of `/Chassis/1/Power`. -/
structure PowerSupply where
  supply_name : Option String := none
  health : Option String := none
deriving Repr, DecidableEq

/-- Body of `GET /redfish/v1/Chassis/1/Power`. -/
structure PowerBody where
  PowerControl : Option (List PowerCtl) := none
  PowerSupplies : Option (List PowerSupply) := none
deriving Repr, DecidableEq

/-- One entry of the `Temperatures` array of `/Chassis/1/Thermal`. -/
structure TempSensor where
  sensor_name : Option String := none
  ReadingCelsius : Option ℤ := none
  health : Option String := none
deriving Repr, DecidableEq

/-- One entry of the `Fans` array of `/Chassis/1/Thermal`. -/
structure FanReading where
  fan_name : Option String := none
  Reading : Option ℤ := none
  health : Option String := none
deriving Repr, DecidableEq

/-- Body of `GET /redfish/v1/Chassis/1/Thermal`. -/
structure ThermalBody where
  Temperatures : Option (List TempSensor) := none
  Fans : Option (List FanReading) := none
deriving Repr, DecidableEq

/-- One controller session: the outcome of each Redfish endpoint the
client touches for this host.  `Except.error` is a raised exception
(unreachable host, auth failure, bad response). -/
structure RedfishConn where
  system_info : Except Unit SystemInfo := .error ()
  set_pxe : Except Unit Unit := .ok ()
  power_on_res : Except Unit Unit := .ok ()
  force_restart_res : Except Unit Unit := .ok ()
  power : Except Unit PowerBody := .error ()
  thermal : Except Unit ThermalBody := .error ()
deriving Repr

/-- `RedfishClient.get_cpu_info` (raises when `get_system_info` does). -/
def get_cpu_info (conn : RedfishConn) : Except Unit CpuInfo :=
  conn.system_info.map (fun i =>
    { count := i.cpu_count.getD 0
      model := i.cpu_model.getD "Unknown"
      health := i.cpu_health.getD "Unknown" })

/-- `RedfishClient.get_memory_info` (raises when `get_system_info` does). -/
def get_memory_info (conn : RedfishConn) : Except Unit MemoryInfo :=
  conn.system_info.map (fun i =>
    { total_gb := i.memory_total_gb.getD 0
      health := i.memory_health.getD "Unknown" })

/-- `RedfishClient.get_power_metrics`: total by construction — the whole
body, the GET included, sits in a `try/except` returning zeroed defaults
(`consumed_watts 0`, `capacity_watts 0`, no supplies). -/
def get_power_metrics (resp : Except Unit PowerBody) : PowerMetrics :=
  match resp with
  | .error _ => { consumed_watts := 0, capacity_watts := 0, power_supplies := [] }
  | .ok body =>
      match (body.PowerControl.getD [{}]).head? with
      | none => { consumed_watts := 0, capacity_watts := 0, power_supplies := [] }
      | some pc =>
          { consumed_watts := pc.PowerConsumedWatts.getD 0
            capacity_watts := pc.PowerCapacityWatts.getD 0
            power_supplies := (body.PowerSupplies.getD []).map (fun ps =>
              (ps.supply_name.getD "", ps.health.getD "Unknown")) }

/-- `RedfishClient.get_thermal_metrics`: total by construction — errors
collapse to zeroed defaults (average and maximum temperature 0, empty
sensor and fan lists). -/
def get_thermal_metrics (resp : Except Unit ThermalBody) : ThermalMetrics :=
  match resp with
  | .error _ =>
      { avg_temp_celsius := 0, max_temp_celsius := 0, sensors := [], fans := [] }
  | .ok body =>
      let temps := body.Temperatures.getD []
      let fans := body.Fans.getD []
      let readings := temps.filterMap TempSensor.ReadingCelsius
      { avg_temp_celsius :=
          if readings.isEmpty then 0
          else ((readings.map (fun r => (r : ℚ))).sum) / (readings.length : ℚ)
        max_temp_celsius := readings.max?.getD 0
        sensors := temps.map (fun t =>
          (t.sensor_name.getD "", t.ReadingCelsius.getD 0, t.health.getD "Unknown"))
        fans := fans.map (fun f =>
          (f.fan_name.getD "", f.Reading.getD 0, f.health.getD "Unknown")) }

/-- The parts of `RedfishClient.get_all_metrics` the monitoring worker
consumes.  `get_system_info`, `get_cpu_info` and `get_memory_info` can
raise; the power and thermal readers cannot. -/
structure AllMetrics where
  cpu : CpuInfo
  memory : MemoryInfo
  power : PowerMetrics
  thermal : ThermalMetrics
deriving Repr, DecidableEq

/-- `RedfishClient.get_all_metrics`. -/
def get_all_metrics (conn : RedfishConn) : Except Unit AllMetrics := do
  let _ ← conn.system_info
  let cpu ← get_cpu_info conn
  let memory ← get_memory_info conn
  pure { cpu := cpu, memory := memory
         power := get_power_metrics conn.power
         thermal := get_thermal_metrics conn.thermal }

/-! ## Provisioning worker (poc/services/provisioning_worker.py) -/

/-- `provisioning_worker.process_device_discovered`.  Each controller
step (`get_system_info`, `set_one_time_pxe_boot`, power on / force
restart) aborts the event on failure — logged and dropped, no inventory
write, no publish.  On success the device is PATCHed to `validating`
with `pxe_boot_initiated_at` stamped and a `pxe_boot_initiated` event is
published. -/
def process_device_discovered (ts : String) (ev : PipeEvent) (conn : RedfishConn)
    (σ : Sys) : Sys :=
  match conn.system_info with
  | .error _ => σ
  | .ok info =>
      let power_state := info.PowerState.getD "Unknown"
      match conn.set_pxe with
      | .error _ => σ
      | .ok _ =>
          match (if pyLower power_state == "off" then conn.power_on_res else conn.force_restart_res) with
          | .error _ => σ
          | .ok _ =>
              match ev.device_id with
              | none => σ
              | some did =>
                  match update_device σ did
                      { lifecycle_state := some STATE_VALIDATING
                        pxe_boot_initiated_at := some ts } with
                  | none => σ
                  | some σ₁ =>
                      publish σ₁ QUEUE_PXE_BOOT_INITIATED
                        { event_type := "pxe_boot_initiated", timestamp := ts
                          device_id := some did, device_name := ev.device_name
                          ip := ev.ip }

/-! ## Validation callback API (poc/services/callback_api.py) -/

/-- One entry of the `interfaces` array of a validation report. -/
structure IfaceReport where
  name : Option String := none
  mac : Option String := none
deriving Repr, DecidableEq

/-- JSON body of `POST /api/v1/validation/report`, restricted to the
fields the handler reads. -/
structure CallbackBody where
  device_id : Option String := none
  manufacturer : Option String := none
  model : Option String := none
  serial : Option String := none
  interfaces : List IfaceReport := []
deriving Repr, DecidableEq

/-- An HTTP response of the callback API: status code plus the JSON
fields the handler emits. -/
structure HttpResp where
  code : Nat
  status : Option String := none
  resp_device_id : Option String := none
  resp_device_name : Option String := none
  error_msg : Option String := none
deriving Repr, DecidableEq

/-- The `comments` string written for a reported hardware model. -/
def hardwareComment (b : CallbackBody) : String :=
  "Hardware: " ++ (b.manufacturer.getD "") ++ " " ++ (b.model.getD "") ++
    " (Serial: " ++ (b.serial.getD "") ++ ")"

/-- The interface-upsert loop of the handler: entries without a truthy
name and MAC are skipped, as are BMC/iLO-named interfaces; the rest are
upserted keyed by (device, name). -/
def upsertReportedIfaces (did : Nat) (dname : String) (ifaces : List IfaceReport)
    (inv : Inventory) : Inventory :=
  ifaces.foldl (fun acc ifr =>
    match ifr.name, ifr.mac with
    | some nm, some mc =>
        if nm == "" || mc == "" then acc
        else if strContains (pyLower nm) "ilo" || strContains (pyLower nm) "bmc" then acc
        else create_or_update_interface acc did dname nm mc
    | _, _ => acc) inv

/-- The side effects of a successful validation report for a resolved
device: optional comments write, interface upserts, state write to
`validated`, publish of a `validation_completed` event. -/
def callback_effects (ts : String) (data : CallbackBody) (did : Nat)
    (device : Device) (σ : Sys) : Sys :=
  let σ₁ :=
    if truthy data.model then
      (update_device σ did { comments := some (hardwareComment data) }).getD σ
    else σ
  let σ₂ := { σ₁ with
    inv := upsertReportedIfaces did device.name data.interfaces σ₁.inv }
  let σ₃ := (set_device_state σ₂ did STATE_VALIDATED).getD σ₂
  publish σ₃ QUEUE_VALIDATION_COMPLETED
    { event_type := "validation_completed", timestamp := ts
      device_id := some did, device_name := some device.name }

/-- `callback_api.validation_report`.  No JSON body or falsy `device_id`:
400, nothing touched.  `device_id` not an integer or not a device: 404,
nothing touched (the lookup is a read).  Otherwise the effects of
`callback_effects` and a 200 response echoing status, device id and
device name. -/
def validation_report (ts : String) (body : Option CallbackBody) (σ : Sys) :
    HttpResp × Sys :=
  match body with
  | none => ({ code := 400, error_msg := some "No JSON data provided" }, σ)
  | some data =>
      if !truthy data.device_id then
        ({ code := 400, error_msg := some "device_id is required" }, σ)
      else
        match pyParseNat (data.device_id.getD "") with
        | none =>
            ({ code := 404, error_msg := some "Device not found" }, σ)
        | some did =>
            match findDevice σ.inv did with
            | none =>
                ({ code := 404, error_msg := some "Device not found" }, σ)
            | some device =>
                ({ code := 200, status := some "success"
                   resp_device_id := data.device_id
                   resp_device_name := some device.name },
                 callback_effects ts data did device σ)

/-! ## Hardening worker (poc/services/hardening_worker.py) -/

/-- Outcome of the external `ansible-playbook` invocation. -/
inductive AnsibleOutcome where
  | completed (returncode : ℤ)
  | timeout
  | commandNotFound
  | playbookMissing
  | raised
deriving Repr, DecidableEq

/-- `hardening_worker.run_ansible_playbook`: `True` exactly when the run
completed with exit code 0; a non-zero exit, the 600-second timeout, a
missing playbook or binary, and any other exception all yield `False`. -/
def run_ansible_playbook (outcome : AnsibleOutcome) : Bool :=
  match outcome with
  | .completed rc => rc == 0
  | _ => false

/-- The BMC-interface search of the hardening worker over
`device.get('interfaces', [])`. -/
def findBmcIface (d : Device) : Option DevIface :=
  d.interfaces.find? (fun i =>
    i.mgmt_only || strContains (pyLower i.name) "ilo" || strContains (pyLower i.name) "bmc")

/-- `hardening_worker.process_validation_completed`.  Missing device,
missing BMC interface or missing/empty primary IP abort the event with
no write.  Otherwise the state is first written to `hardening`; a failed
configuration run aborts there (state stays `hardening`, `hardened_at`
untouched, nothing published); a successful run writes `staged` with
`hardened_at` stamped and publishes one `hardening_completed` event. -/
def process_validation_completed (ts : String) (ev : PipeEvent)
    (ansible : AnsibleOutcome) (σ : Sys) : Sys :=
  match ev.device_id with
  | none => σ
  | some did =>
      match findDevice σ.inv did with
      | none => σ
      | some device =>
          match findBmcIface device with
          | none => σ
          | some _ =>
              match device.primary_ip4 with
              | none => σ
              | some addr =>
                  let device_ip := pySplitFirst addr '/'
                  if device_ip == "" then σ
                  else
                    let σ₁ := (set_device_state σ did STATE_HARDENING).getD σ
                    if !run_ansible_playbook ansible then σ₁
                    else
                      let σ₂ := (update_device σ₁ did
                        { lifecycle_state := some STATE_STAGED
                          hardened_at := some ts }).getD σ₁
                      publish σ₂ QUEUE_HARDENING_COMPLETED
                        { event_type := "hardening_completed", timestamp := ts
                          device_id := some did, device_name := ev.device_name }

/-! ## Monitoring worker (poc/services/monitoring_worker.py) -/

/-- `monitoring_worker.collect_metrics` for one device.  `netbox_ok`
models whether the final annotation PATCH to NetBox raises (the PATCH
sits in its own `try/except`, so a failure only loses the annotation).
Any exception from the telemetry pull is caught by the per-device
handler: no file is written and the cycle moves on. -/
def collect_metrics (ts : String) (device : Device) (conn : RedfishConn)
    (netbox_ok : Bool) (σ : Sys) : Sys :=
  match device.primary_ip4 with
  | none => σ
  | some addr =>
      let device_ip := pySplitFirst addr '/'
      if device_ip == "" then σ
      else
        match get_all_metrics conn with
        | .error _ => σ
        | .ok m =>
            let doc : MetricsDoc :=
              { device_id := device.id, device_name := device.name, timestamp := ts
                cpu := m.cpu, memory := m.memory, power := m.power, thermal := m.thermal }
            let σ₁ := { σ with metricsFiles := σ.metricsFiles ++ [doc] }
            if netbox_ok then
              (update_device σ₁ device.id
                { last_monitored_at := some ts
                  last_power_watts := some m.power.consumed_watts }).getD σ₁
            else σ₁

/-- One poll cycle of `monitoring_worker.monitoring_loop` over the
devices listed in `ready` state, each paired with its controller session
and the fate of its annotation PATCH. -/
def monitoring_cycle (ts : String) (devs : List (Device × RedfishConn × Bool))
    (σ : Sys) : Sys :=
  devs.foldl (fun acc e => collect_metrics ts e.1 e.2.1 e.2.2 acc) σ

/-! ## DHCP tailer (poc/services/dhcp_tailer.py) -/

/-- One input line handed to the tailer's `process_dhcp_event`:
unparseable JSON, JSON that is not an object (`.get` raises, caught by
the generic handler), or an object with optional `event_type` and
`data`. -/
inductive TailLine where
  | malformed
  | nonObject
  | object (event_type : Option String) (data : Option LeaseData)
deriving Repr, DecidableEq

/-- The tailer's observable state: events published to the lease queue
(in order) and the count of error records written. -/
structure TailState where
  published : List (Option String × Option LeaseData) := []
  errors : Nat := 0
deriving Repr, DecidableEq

/-- `dhcp_tailer.process_dhcp_event` for one line: malformed input and
events with a falsy `ip` or `mac` are recorded as errors and dropped;
everything else is published to the lease queue once.  Total — every
exception path of the source is caught inside the function. -/
def process_tail_event (l : TailLine) (st : TailState) : TailState :=
  match l with
  | .malformed => { st with errors := st.errors + 1 }
  | .nonObject => { st with errors := st.errors + 1 }
  | .object et data =>
      let d := data.getD {}
      if !truthy d.ip || !truthy d.mac then { st with errors := st.errors + 1 }
      else { st with published := st.published ++ [(et, data)] }

/-- The tailer's loop body over a batch of observed lines. -/
def process_tail_lines (ls : List TailLine) (st : TailState) : TailState :=
  ls.foldl (fun acc l => process_tail_event l acc) st

/-- The event published for a line, if any: the line must be a JSON
object whose `data` carries a truthy `ip` and `mac`. -/
def tailPublishes (l : TailLine) : Option (Option String × Option LeaseData) :=
  match l with
  | .object et data =>
      let d := data.getD {}
      if !truthy d.ip || !truthy d.mac then none else some (et, data)
  | _ => none

/-- Whether a line is dropped and recorded as an error. -/
def tailRejects (l : TailLine) : Bool :=
  (tailPublishes l).isNone

/-! ## The pipeline as a whole: stage executions and the §4.1 order -/

/-- One execution of one pipeline stage on one trigger: a consumed lease
event, a consumed `device_discovered` event together with the controller
session it opens, an inbound validation callback, a consumed
`validation_completed` event together with the configuration-run
outcome, or one monitoring poll cycle. -/
inductive Step where
  | lease (ev : LeaseData)
  | discovered (ev : PipeEvent) (conn : RedfishConn)
  | callback (body : Option CallbackBody)
  | validationDone (ev : PipeEvent) (ansible : AnsibleOutcome)
  | monitor (devs : List (Device × RedfishConn × Bool))

/-- Run one stage execution against the world state. -/
def runStep (ts : String) (s : Step) (σ : Sys) : Sys :=
  match s with
  | .lease ev => process_dhcp_event ts ev σ
  | .discovered ev conn => process_device_discovered ts ev conn σ
  | .callback body => (validation_report ts body σ).2
  | .validationDone ev ansible => process_validation_completed ts ev ansible σ
  | .monitor devs => monitoring_cycle ts devs σ

/-- The `lifecycle_state` writes performed by one stage execution. -/
def newWrites (ts : String) (s : Step) (σ : Sys) : List (Option String × String) :=
  (runStep ts s σ).stateWrites.drop σ.stateWrites.length

/-- Rank of a lifecycle state in the §4.1 order (`discovered` and
`planned` share the node after `offline`; `error` is outside the
order). -/
def stateRank : String → Option Nat
  | "offline" => some 0
  | "planned" => some 1
  | "discovered" => some 1
  | "validating" => some 2
  | "validated" => some 3
  | "hardening" => some 4
  | "staged" => some 5
  | "ready" => some 6
  | "monitored" => some 7
  | _ => none

/-- Rank of a possibly-unset state value (an unset or unranked state
counts as the bottom of the order). -/
def rankB (b : Option String) : Nat :=
  match b with
  | none => 0
  | some s => (stateRank s).getD 0

/-- The spec's forward-only property over an audit trail: every recorded
`lifecycle_state` write other than an explicit transition to `error`
moves the state weakly forward in the §4.1 order. -/
def ForwardOnly (σ : Sys) : Prop :=
  ∀ w ∈ σ.stateWrites, w.2 ≠ STATE_ERROR → rankB w.1 ≤ rankB (some w.2)

instance (σ : Sys) : Decidable (ForwardOnly σ) := by
  unfold ForwardOnly; infer_instance

/-- The rank of the lifecycle state each stage writes when it fires in
its intended place in the pipeline (the §4.1 target of the stage's
transition; for hardening, the first of its two writes; monitoring
writes no lifecycle state). -/
def stepFloor : Step → Nat
  | .lease _ => 1
  | .discovered _ _ => 2
  | .callback _ => 3
  | .validationDone _ _ => 4
  | .monitor _ => 7

/-! ## Concrete fixtures (the §8 scenario inventory) -/

/-- The scenario device: in state `offline`, with its BMC address as
primary IP once assigned externally. -/
def srv0 : Device :=
  { id := 1, name := "srv-201", lifecycle_state := some STATE_OFFLINE
    primary_ip4 := some "10.23.0.50/24"
    interfaces := [{ name := "iLO 1", mgmt_only := true }] }

/-- The scenario BMC interface carrying the lease's MAC. -/
def bmcIface0 : Iface :=
  { id := 10, name := "bmc", device := some (1, "srv-201")
    mac_address := "A0:36:9F:C8:C0:52" }

/-- The scenario inventory: one device, one BMC interface, no IP records
yet. -/
def inv0 : Inventory :=
  { devices := [srv0], interfaces := [bmcIface0] }

/-- Initial world state for the scenario. -/
def sys0 : Sys := { inv := inv0 }

/-- The §8 scenario lease event. -/
def lease0 : LeaseData :=
  { ip := some "10.23.0.50", mac := some "A0:36:9F:C8:C0:52" }

/-- A lease event whose MAC resolves to no inventory interface. -/
def leaseBad : LeaseData :=
  { ip := some "10.23.0.99", mac := some "DE:AD:BE:EF:00:01" }

/-- A healthy controller session for a powered-off server. -/
def connOk : RedfishConn :=
  { system_info := .ok { PowerState := some "Off" } }

/-- A controller session whose very first request fails. -/
def connDown : RedfishConn := { system_info := .error () }

/-- The `device_discovered` event the scenario discovery run publishes. -/
def discEv0 : PipeEvent :=
  { event_type := "device_discovered", timestamp := "T1", device_id := some 1
    device_name := some "srv-201", ip := some "10.23.0.50"
    mac := some "A0:36:9F:C8:C0:52" }

/-- The validation callback the scenario server sends for itself. -/
def cbBody0 : CallbackBody := { device_id := some "1" }

/-- The `validation_completed` event the scenario callback publishes. -/
def valEv0 : PipeEvent :=
  { event_type := "validation_completed", timestamp := "T3"
    device_id := some 1, device_name := some "srv-201" }

/-- A sequence of stage executions, run in order. -/
def pipelineRun (steps : List (String × Step)) (σ : Sys) : Sys :=
  steps.foldl (fun acc e => runStep e.1 e.2 acc) σ

/-- The replay trace: the scenario pipeline through discovery,
provisioning and the validation callback, followed by an at-least-once
redelivery of the very same lease event. -/
def replayTrace : List (String × Step) :=
  [("T1", .lease lease0),
   ("T2", .discovered discEv0 connOk),
   ("T3", .callback (some cbBody0)),
   ("T4", .lease lease0)]

/-- The metrics document one `collect_metrics` call persists, if any:
`none` when the device has no usable IP or the telemetry pull raised. -/
def collectedDoc (ts : String) (device : Device) (conn : RedfishConn) :
    Option MetricsDoc :=
  match device.primary_ip4 with
  | none => none
  | some addr =>
      if pySplitFirst addr '/' == "" then none
      else
        match get_all_metrics conn with
        | .error _ => none
        | .ok m =>
            some { device_id := device.id, device_name := device.name, timestamp := ts
                   cpu := m.cpu, memory := m.memory, power := m.power, thermal := m.thermal }

/-- A controller session whose system endpoint answers but whose power
and thermal endpoints fail. -/
def connPowerDown (info : SystemInfo) : RedfishConn :=
  { system_info := .ok info, power := .error (), thermal := .error () }

/-- A controller session genuinely reporting all-zero power and thermal
readings (an empty `PowerControl` entry, no supplies, no sensors). -/
def connZeroReadings (info : SystemInfo) : RedfishConn :=
  { system_info := .ok info
    power := .ok { PowerControl := some [{}], PowerSupplies := some [] }
    thermal := .ok { Temperatures := some [], Fans := some [] } }

/-- The zeroed default power metrics. -/
def zeroPower : PowerMetrics :=
  { consumed_watts := 0, capacity_watts := 0, power_supplies := [] }

/-- The zeroed default thermal metrics. -/
def zeroThermal : ThermalMetrics :=
  { avg_temp_celsius := 0, max_temp_celsius := 0, sensors := [], fans := [] }

/-- A lease-queue line whose `ip` field is present but empty. -/
def emptyIpLease : LeaseData :=
  { ip := some "", mac := some "AA:BB:CC:DD:EE:FF" }

/-- A validation callback body whose `device_id` resolves to no
inventory device. -/
def cbBody404 : CallbackBody := { device_id := some "999" }

/-- An anonymous system-information record (every field defaulted). -/
def infoNone : SystemInfo := {}

/-! ## Helper lemmas -/

theorem applyPatch_id (d : Device) (p : DevicePatch) : (applyPatch d p).id = d.id := rfl

theorem findDevice_map_patch (l : List Device) (did : Nat) (p : DevicePatch) :
    (l.map (fun e => if e.id == did then applyPatch e p else e)).find?
        (fun d => d.id == did) =
      (l.find? (fun d => d.id == did)).map (fun e => applyPatch e p) := by
  have hpf : ((fun d => d.id == did) ∘ fun e => if e.id == did then applyPatch e p else e) =
      (fun d : Device => d.id == did) := by
    funext e
    by_cases h : e.id = did
    · subst h
      simp [applyPatch_id]
    · simp [h, applyPatch_id]
  cases hf : l.find? (fun d => d.id == did) with
  | none => rw [List.find?_map, hpf, hf]; rfl
  | some d =>
      have hd := List.find?_some hf
      rw [List.find?_map, hpf, hf]
      simp [hd]
      intro hco
      simp only [beq_iff_eq] at hd
      exact absurd hd hco

theorem update_device_eq (σ : Sys) (did : Nat) (p : DevicePatch) (d : Device)
    (h : findDevice σ.inv did = some d) :
    update_device σ did p = some { σ with
      inv := { σ.inv with
        devices := σ.inv.devices.map (fun e => if e.id == did then applyPatch e p else e) }
      stateWrites := σ.stateWrites ++
        (match p.lifecycle_state with
         | some s => [(d.lifecycle_state, s)]
         | none => []) } := by
  unfold update_device
  rw [h]

theorem findDevice_after_update (σ σ' : Sys) (did : Nat) (p : DevicePatch) (d : Device)
    (h : findDevice σ.inv did = some d)
    (hu : update_device σ did p = some σ') :
    findDevice σ'.inv did = some (applyPatch d p) := by
  rw [update_device_eq σ did p d h] at hu
  cases hu
  unfold findDevice at h ⊢
  simp only [findDevice_map_patch, h]
  rfl

theorem update_device_stateWrites_some (σ σ' : Sys) (did : Nat) (p : DevicePatch) (s : String)
    (hp : p.lifecycle_state = some s)
    (hu : update_device σ did p = some σ') :
    ∃ b, σ'.stateWrites = σ.stateWrites ++ [(b, s)] := by
  unfold update_device at hu
  cases h : findDevice σ.inv did with
  | none => rw [h] at hu; cases hu
  | some d =>
      rw [h] at hu
      cases hu
      exact ⟨d.lifecycle_state, by simp [hp]⟩

theorem update_device_stateWrites_none (σ σ' : Sys) (did : Nat) (p : DevicePatch)
    (hp : p.lifecycle_state = none)
    (hu : update_device σ did p = some σ') :
    σ'.stateWrites = σ.stateWrites := by
  unfold update_device at hu
  cases h : findDevice σ.inv did with
  | none => rw [h] at hu; cases hu
  | some d =>
      rw [h] at hu
      cases hu
      simp [hp]

theorem update_getD_stateWrites_none (σ : Sys) (did : Nat) (p : DevicePatch)
    (hp : p.lifecycle_state = none) :
    ((update_device σ did p).getD σ).stateWrites = σ.stateWrites := by
  cases hu : update_device σ did p with
  | none => rfl
  | some σ' => simpa using update_device_stateWrites_none σ σ' did p hp hu

theorem publish_stateWrites (σ : Sys) (q : String) (e : PipeEvent) :
    (publish σ q e).stateWrites = σ.stateWrites := rfl

theorem update_device_queues (σ σ' : Sys) (did : Nat) (p : DevicePatch)
    (hu : update_device σ did p = some σ') :
    σ'.queues = σ.queues := by
  unfold update_device at hu
  cases h : findDevice σ.inv did with
  | none => rw [h] at hu; cases hu
  | some d => rw [h] at hu; cases hu; rfl

theorem update_device_metricsFiles (σ σ' : Sys) (did : Nat) (p : DevicePatch)
    (hu : update_device σ did p = some σ') :
    σ'.metricsFiles = σ.metricsFiles := by
  unfold update_device at hu
  cases h : findDevice σ.inv did with
  | none => rw [h] at hu; cases hu
  | some d => rw [h] at hu; cases hu; rfl

theorem setState_getD_stateWrites (σ : Sys) (did : Nat) (s : String) :
    ∃ L, ((set_device_state σ did s).getD σ).stateWrites = σ.stateWrites ++ L ∧
      ∀ w ∈ L, w.2 = s := by
  cases hS : set_device_state σ did s with
  | none => exact ⟨[], by simp, by simp⟩
  | some σ' =>
      obtain ⟨b, hb⟩ := update_device_stateWrites_some σ σ' did _ s rfl hS
      exact ⟨[(b, s)], by simp [hb], by simp⟩

theorem update_getD_publish_stateWrites (σ : Sys) (did : Nat) (p : DevicePatch)
    (s : String) (hp : p.lifecycle_state = some s) (q : String) (e : PipeEvent) :
    ∃ L, (publish ((update_device σ did p).getD σ) q e).stateWrites =
        σ.stateWrites ++ L ∧ ∀ w ∈ L, w.2 = s := by
  cases hS : update_device σ did p with
  | none => exact ⟨[], by simp [publish_stateWrites], by simp⟩
  | some σ' =>
      obtain ⟨b, hb⟩ := update_device_stateWrites_some σ σ' did p s hp hS
      exact ⟨[(b, s)], by simp [publish_stateWrites, hb], by simp⟩

theorem setState_getD_publish_stateWrites (σ : Sys) (did : Nat) (s q : String)
    (e : PipeEvent) :
    ∃ L, (publish ((set_device_state σ did s).getD σ) q e).stateWrites =
        σ.stateWrites ++ L ∧ ∀ w ∈ L, w.2 = s := by
  exact update_getD_publish_stateWrites σ did _ s rfl q e

theorem publish_setState_getD_writes_of_base (σbase σ : Sys)
    (h : σ.stateWrites = σbase.stateWrites) (did : Nat) (s q : String) (e : PipeEvent) :
    ∃ L, (publish ((set_device_state σ did s).getD σ) q e).stateWrites =
        σbase.stateWrites ++ L ∧ ∀ w ∈ L, w.2 = s := by
  obtain ⟨L, hL, hM⟩ := setState_getD_publish_stateWrites σ did s q e
  exact ⟨L, by rw [hL, h], hM⟩

theorem discovery_stateWrites (ts : String) (ev : LeaseData) (σ : Sys) :
    ∃ L, (process_dhcp_event ts ev σ).stateWrites = σ.stateWrites ++ L ∧
      ∀ w ∈ L, w.2 = STATE_PLANNED := by
  unfold process_dhcp_event
  cases hF : find_interface_by_mac σ.inv ev.mac with
  | none => exact ⟨[], by simp [hF], by simp⟩
  | some iface =>
      cases hD : iface.device with
      | none => exact ⟨[], by simp [hF, hD], by simp⟩
      | some pr =>
          obtain ⟨did, dname⟩ := pr
          simp only [hF, hD]
          cases hU : update_device
              { σ with inv := assign_ip_to_interface σ.inv iface.id (optStr ev.ip ++ "/24") }
              did { lifecycle_state := some STATE_PLANNED, discovered_at := some ts } with
          | none => exact ⟨[], by simp [hU], by simp⟩
          | some σ₂ =>
              obtain ⟨b, hb⟩ := update_device_stateWrites_some _ σ₂ _ _ STATE_PLANNED rfl hU
              exact ⟨[(b, STATE_PLANNED)], by simp [hU, publish_stateWrites, hb], by simp⟩

theorem provisioning_stateWrites (ts : String) (ev : PipeEvent) (conn : RedfishConn)
    (σ : Sys) :
    ∃ L, (process_device_discovered ts ev conn σ).stateWrites = σ.stateWrites ++ L ∧
      ∀ w ∈ L, w.2 = STATE_VALIDATING := by
  unfold process_device_discovered
  cases hsi : conn.system_info with
  | error e => exact ⟨[], by simp [hsi], by simp⟩
  | ok info =>
      simp only [hsi]
      cases hsp : conn.set_pxe with
      | error e => exact ⟨[], by simp [hsp], by simp⟩
      | ok u =>
          simp only [hsp]
          cases hre : (if (pyLower (info.PowerState.getD "Unknown") == "off") = true
              then conn.power_on_res else conn.force_restart_res) with
          | error e => exact ⟨[], by simp [hre], by simp⟩
          | ok u2 =>
              simp only [hre]
              cases hdi : ev.device_id with
              | none => exact ⟨[], by simp [hdi], by simp⟩
              | some did =>
                  simp only [hdi]
                  cases hU : update_device σ did
                      { lifecycle_state := some STATE_VALIDATING
                        pxe_boot_initiated_at := some ts } with
                  | none => exact ⟨[], by simp [hU], by simp⟩
                  | some σ₁ =>
                      obtain ⟨b, hb⟩ :=
                        update_device_stateWrites_some _ σ₁ _ _ STATE_VALIDATING rfl hU
                      exact ⟨[(b, STATE_VALIDATING)],
                        by simp [hU, publish_stateWrites, hb], by simp⟩

theorem callback_effects_stateWrites (ts : String) (data : CallbackBody) (did : Nat)
    (device : Device) (σ : Sys) :
    ∃ L, (callback_effects ts data did device σ).stateWrites = σ.stateWrites ++ L ∧
      ∀ w ∈ L, w.2 = STATE_VALIDATED := by
  unfold callback_effects
  dsimp only
  refine publish_setState_getD_writes_of_base σ _ ?_ did STATE_VALIDATED _ _
  show (if truthy data.model then
      (update_device σ did { comments := some (hardwareComment data) }).getD σ
    else σ).stateWrites = σ.stateWrites
  split
  · exact update_getD_stateWrites_none σ did _ rfl
  · rfl

theorem callback_stateWrites (ts : String) (body : Option CallbackBody) (σ : Sys) :
    ∃ L, ((validation_report ts body σ).2).stateWrites = σ.stateWrites ++ L ∧
      ∀ w ∈ L, w.2 = STATE_VALIDATED := by
  unfold validation_report
  cases body with
  | none => exact ⟨[], by simp, by simp⟩
  | some data =>
      dsimp only
      split
      · exact ⟨[], by simp, by simp⟩
      · cases hN : pyParseNat (data.device_id.getD "") with
        | none => exact ⟨[], by simp [hN], by simp⟩
        | some did =>
            simp only [hN]
            cases hD : findDevice σ.inv did with
            | none => exact ⟨[], by simp [hD], by simp⟩
            | some device =>
                simp only [hD]
                exact callback_effects_stateWrites ts data did device σ

theorem hardening_stateWrites (ts : String) (ev : PipeEvent) (ansible : AnsibleOutcome)
    (σ : Sys) :
    ∃ L, (process_validation_completed ts ev ansible σ).stateWrites = σ.stateWrites ++ L ∧
      ∀ w ∈ L, w.2 = STATE_HARDENING ∨ w.2 = STATE_STAGED := by
  unfold process_validation_completed
  cases hdid : ev.device_id with
  | none => exact ⟨[], by simp [hdid], by simp⟩
  | some did =>
      simp only [hdid]
      cases hdev : findDevice σ.inv did with
      | none => exact ⟨[], by simp [hdev], by simp⟩
      | some device =>
          simp only [hdev]
          cases hbmc : findBmcIface device with
          | none => exact ⟨[], by simp [hbmc], by simp⟩
          | some bi =>
              simp only [hbmc]
              cases hip : device.primary_ip4 with
              | none => exact ⟨[], by simp [hip], by simp⟩
              | some addr =>
                  simp only [hip]
                  split
                  · exact ⟨[], by simp, by simp⟩
                  · split
                    · obtain ⟨L, hL, hM⟩ := setState_getD_stateWrites σ did STATE_HARDENING
                      exact ⟨L, hL, fun w hw => Or.inl (hM w hw)⟩
                    · obtain ⟨L₁, h₁, m₁⟩ := setState_getD_stateWrites σ did STATE_HARDENING
                      obtain ⟨L₂, h₂, m₂⟩ := update_getD_publish_stateWrites
                        ((set_device_state σ did STATE_HARDENING).getD σ) did
                        { lifecycle_state := some STATE_STAGED, hardened_at := some ts }
                        STATE_STAGED rfl QUEUE_HARDENING_COMPLETED
                        { event_type := "hardening_completed", timestamp := ts
                          device_id := some did, device_name := ev.device_name }
                      refine ⟨L₁ ++ L₂, ?_, ?_⟩
                      · rw [h₂, h₁, List.append_assoc]
                      · intro w hw
                        rcases List.mem_append.mp hw with h | h
                        · exact Or.inl (m₁ w h)
                        · exact Or.inr (m₂ w h)

theorem monitoring_cycle_cons (ts : String) (d : Device × RedfishConn × Bool)
    (rest : List (Device × RedfishConn × Bool)) (σ : Sys) :
    monitoring_cycle ts (d :: rest) σ =
      monitoring_cycle ts rest (collect_metrics ts d.1 d.2.1 d.2.2 σ) := rfl

theorem collect_metrics_stateWrites (ts : String) (device : Device) (conn : RedfishConn)
    (netbox_ok : Bool) (σ : Sys) :
    (collect_metrics ts device conn netbox_ok σ).stateWrites = σ.stateWrites := by
  unfold collect_metrics
  cases hip : device.primary_ip4 with
  | none => simp [hip]
  | some addr =>
      simp only [hip]
      split
      · rfl
      · cases hm : get_all_metrics conn with
        | error e => simp [hm]
        | ok m =>
            simp only [hm]
            split
            · exact update_getD_stateWrites_none _ _ _ rfl
            · rfl

theorem monitoring_cycle_stateWrites (ts : String)
    (devs : List (Device × RedfishConn × Bool)) (σ : Sys) :
    (monitoring_cycle ts devs σ).stateWrites = σ.stateWrites := by
  induction devs generalizing σ with
  | nil => rfl
  | cons d rest ih =>
      rw [monitoring_cycle_cons, ih, collect_metrics_stateWrites]

theorem collect_metrics_metricsFiles (ts : String) (device : Device) (conn : RedfishConn)
    (netbox_ok : Bool) (σ : Sys) :
    (collect_metrics ts device conn netbox_ok σ).metricsFiles =
      σ.metricsFiles ++ (collectedDoc ts device conn).toList := by
  unfold collect_metrics collectedDoc
  cases hip : device.primary_ip4 with
  | none => simp [hip]
  | some addr =>
      simp only [hip]
      by_cases hmt : ((pySplitFirst addr '/' == "") = true)
      · rw [if_pos hmt, if_pos hmt]
        simp
      · rw [if_neg hmt, if_neg hmt]
        cases hm : get_all_metrics conn with
        | error e => simp [hm]
        | ok m =>
            simp only [hm]
            split
            · cases hu : update_device
                  { σ with metricsFiles := σ.metricsFiles ++
                    [{ device_id := device.id, device_name := device.name, timestamp := ts
                       cpu := m.cpu, memory := m.memory, power := m.power
                       thermal := m.thermal }] } device.id
                  { last_monitored_at := some ts
                    last_power_watts := some m.power.consumed_watts } with
              | none => simp [hu]
              | some σ' =>
                  have hf := update_device_metricsFiles _ σ' device.id _ hu
                  simp [hu, hf]
            · simp

theorem monitoring_cycle_metricsFiles (ts : String)
    (devs : List (Device × RedfishConn × Bool)) (σ : Sys) :
    (monitoring_cycle ts devs σ).metricsFiles =
      σ.metricsFiles ++ devs.filterMap (fun e => collectedDoc ts e.1 e.2.1) := by
  induction devs generalizing σ with
  | nil => simp [monitoring_cycle]
  | cons d rest ih =>
      rw [monitoring_cycle_cons, ih, collect_metrics_metricsFiles]
      cases hc : collectedDoc ts d.1 d.2.1 with
      | none => simp [List.filterMap_cons, hc]
      | some doc => simp [List.filterMap_cons, hc]

/-! ## Claim theorems -/

/-- C6: for every lease event whose MAC does not resolve to any
inventory interface, Discovery performs no inventory write of any kind
(devices, interfaces and IP records untouched, no state write), records
one structured "address not found" entry to the dedicated error log,
publishes no downstream event, and drops the event without retry. -/
theorem discovery_unresolved_mac_drops (ts : String) (ev : LeaseData) (σ : Sys)
    (h : find_interface_by_mac σ.inv ev.mac = none) :
    process_dhcp_event ts ev σ =
      { σ with errorLog := σ.errorLog ++ [mac_not_found_line ts ev.mac ev.ip] } := by
  unfold process_dhcp_event
  rw [h]

/-- Witness for `discovery_unresolved_mac_drops`: the unknown MAC
`DE:AD:BE:EF:00:01` against the scenario inventory. -/
theorem discovery_unresolved_mac_drops_witness :
    find_interface_by_mac sys0.inv leaseBad.mac = none ∧
    process_dhcp_event "T1" leaseBad sys0 =
      { sys0 with errorLog := sys0.errorLog ++
          [mac_not_found_line "T1" leaseBad.mac leaseBad.ip] } :=
  ⟨rfl, discovery_unresolved_mac_drops "T1" leaseBad sys0 rfl⟩

/-- C4: for every discovery event, a failure of any controller step
(connect/identify, arming one-time network boot, or the power
on/restart) aborts that event with the world state completely
unchanged: no lifecycle write, `pxe_boot_initiated_at` untouched, no
`pxe_boot_initiated` event published. -/
theorem provisioning_failure_no_advance (ts : String) (ev : PipeEvent)
    (conn : RedfishConn) (σ : Sys)
    (h : conn.system_info = .error () ∨ conn.set_pxe = .error () ∨
         (conn.power_on_res = .error () ∧ conn.force_restart_res = .error ())) :
    process_device_discovered ts ev conn σ = σ := by
  unfold process_device_discovered
  rcases h with h | h | h
  · rw [h]
  · cases hsi : conn.system_info with
    | error e => rfl
    | ok info => rw [h]
  · obtain ⟨h1, h2⟩ := h
    cases hsi : conn.system_info with
    | error e => rfl
    | ok info =>
        cases hsp : conn.set_pxe with
        | error e => rfl
        | ok u =>
            dsimp only
            by_cases hps : ((pyLower (info.PowerState.getD "Unknown") == "off") = true)
            · rw [if_pos hps, h1]
            · rw [if_neg hps, h2]

/-- Witness for `provisioning_failure_no_advance`: an unreachable
controller (`connDown`) for the scenario discovery event leaves the
scenario state untouched. -/
theorem provisioning_failure_no_advance_witness :
    connDown.system_info = .error () ∧
    process_device_discovered "T2" discEv0 connDown sys0 = sys0 :=
  ⟨rfl, provisioning_failure_no_advance "T2" discEv0 connDown sys0 (Or.inl rfl)⟩

/-- C2 (evaluation at the failing input): replaying the identical
scenario lease event a second time does not update the existing IP
assignment in place — the unconditional POST of
`assign_ip_to_interface` creates a second IP record for the same
interface, so the IP is assigned twice, not exactly once. -/
theorem discovery_replay_duplicates_ip :
    (process_dhcp_event "T2" lease0 (process_dhcp_event "T1" lease0 sys0)).inv.ip_addresses =
      [{ address := "10.23.0.50/24", interface_id := 10 },
       { address := "10.23.0.50/24", interface_id := 10 }] ∧
    ((process_dhcp_event "T2" lease0 (process_dhcp_event "T1" lease0 sys0)).inv.ip_addresses.countP
      (fun r => r.address == "10.23.0.50/24" && r.interface_id == 10)) = 2 :=
  ⟨rfl, rfl⟩

/-- C3 counterexample: for the §8 scenario lease on the `OFFLINE`
scenario device, the lifecycle state Discovery writes is the string
`"planned"` (config.STATE_PLANNED) — not `"discovered"`. -/
theorem discovery_scenario_not_discovered :
    (findDevice (process_dhcp_event "T1" lease0 sys0).inv 1).map Device.lifecycle_state =
      some (some STATE_PLANNED) ∧ STATE_PLANNED ≠ "discovered" :=
  ⟨rfl, by decide⟩

/-- C3 (amended): the scenario lease on the `OFFLINE` scenario device
results in lifecycle state `PLANNED` (the code's name for the
DISCOVERED/PLANNED node of §4.1), `discovered_at` stamped, and the bmc
interface holding `10.23.0.50/24` (the observed IP with a /24 mask). -/
theorem discovery_scenario_planned_with_ip :
    (findDevice (process_dhcp_event "T1" lease0 sys0).inv 1).map Device.lifecycle_state =
      some (some STATE_PLANNED) ∧
    (findDevice (process_dhcp_event "T1" lease0 sys0).inv 1).map Device.discovered_at =
      some (some "T1") ∧
    (process_dhcp_event "T1" lease0 sys0).inv.ip_addresses =
      [{ address := "10.23.0.50/24", interface_id := bmcIface0.id }] :=
  ⟨rfl, rfl, rfl⟩

/-- C9 counterexample: a parseable line whose `ip` field is present but
empty (`""`) is dropped and recorded as an error, although both `ip`
and `mac` are present — the code tests Python truthiness, not
presence. -/
theorem tailer_present_empty_ip_dropped :
    emptyIpLease.ip.isSome = true ∧ emptyIpLease.mac.isSome = true ∧
    (process_tail_event (.object (some "dhcp_lease") (some emptyIpLease)) {}).published = [] ∧
    (process_tail_event (.object (some "dhcp_lease") (some emptyIpLease)) {}).errors = 1 :=
  ⟨rfl, rfl, rfl, rfl⟩

/-- C9 (amended): the tailer's processing function is total (malformed
input is recorded as an error, never raised), and over any batch of
observed lines every line with a truthy (present and non-empty) `ip`
and `mac` is published to the lease queue exactly once, in order, while
every other line is dropped and counted as an error. -/
theorem tailer_publishes_exactly_once (ls : List TailLine) (st : TailState) :
    (process_tail_lines ls st).published = st.published ++ ls.filterMap tailPublishes ∧
    (process_tail_lines ls st).errors = st.errors + ls.countP tailRejects := by
  induction ls generalizing st with
  | nil => simp [process_tail_lines]
  | cons l rest ih =>
      have hcons : process_tail_lines (l :: rest) st =
          process_tail_lines rest (process_tail_event l st) := rfl
      rw [hcons]
      obtain ⟨ih1, ih2⟩ := ih (process_tail_event l st)
      rw [ih1, ih2]
      cases l with
      | malformed =>
          constructor
          · simp [process_tail_event, tailPublishes, List.filterMap_cons]
          · simp [process_tail_event, tailRejects, tailPublishes, List.countP_cons]
            omega
      | nonObject =>
          constructor
          · simp [process_tail_event, tailPublishes, List.filterMap_cons]
          · simp [process_tail_event, tailRejects, tailPublishes, List.countP_cons]
            omega
      | object et data =>
          by_cases h : ((!truthy (data.getD {}).ip || !truthy (data.getD {}).mac) = true)
          · constructor
            · simp [process_tail_event, tailPublishes, List.filterMap_cons, h]
            · simp [process_tail_event, tailRejects, tailPublishes, List.countP_cons, h]
              omega
          · constructor
            · simp [process_tail_event, tailPublishes, List.filterMap_cons, h]
            · simp [process_tail_event, tailRejects, tailPublishes, List.countP_cons, h]
/-- C1 counterexample: running the pipeline from the all-offline
scenario inventory through discovery, provisioning and the validation
callback and then processing an at-least-once redelivery of the very
same lease event produces a `lifecycle_state` write from `validated`
back to `planned` — a backward write (rank 3 to rank 1) that is not a
transition to `error`, on a reachable prior state. -/
theorem lifecycle_forward_only_fails_on_replay :
    ¬ ForwardOnly (pipelineRun replayTrace sys0) := by decide

/-- C1 (amended): every `lifecycle_state` write of any stage execution
writes one of the stage's fixed target states (never `error`, never
below the stage's §4.1 target), and whenever the prior state ranks at
or below that target — in particular for every first-time, in-order
trigger — the write moves the state weakly forward
(`state_rank(before) <= state_rank(after)`).  The writes are
unconditional, so a replayed trigger against a device already past the
stage's target moves it backwards (see the counterexample). -/
theorem lifecycle_write_targets (ts : String) (s : Step) (σ : Sys)
    (w : Option String × String) (hw : w ∈ newWrites ts s σ) :
    w.2 ≠ STATE_ERROR ∧ stepFloor s ≤ rankB (some w.2) ∧
      (rankB w.1 ≤ stepFloor s → rankB w.1 ≤ rankB (some w.2)) := by
  cases s with
  | lease ev =>
      obtain ⟨L, hL, hM⟩ := discovery_stateWrites ts ev σ
      rw [newWrites, show runStep ts (Step.lease ev) σ = process_dhcp_event ts ev σ from rfl,
        hL, List.drop_left] at hw
      have h2 := hM w hw
      exact ⟨by rw [h2]; decide, by rw [h2]; simp only [stepFloor]; decide,
        fun hr => hr.trans (by rw [h2]; simp only [stepFloor]; decide)⟩
  | discovered ev conn =>
      obtain ⟨L, hL, hM⟩ := provisioning_stateWrites ts ev conn σ
      rw [newWrites,
        show runStep ts (Step.discovered ev conn) σ = process_device_discovered ts ev conn σ from rfl,
        hL, List.drop_left] at hw
      have h2 := hM w hw
      exact ⟨by rw [h2]; decide, by rw [h2]; simp only [stepFloor]; decide,
        fun hr => hr.trans (by rw [h2]; simp only [stepFloor]; decide)⟩
  | callback body =>
      obtain ⟨L, hL, hM⟩ := callback_stateWrites ts body σ
      rw [newWrites,
        show runStep ts (Step.callback body) σ = (validation_report ts body σ).2 from rfl,
        hL, List.drop_left] at hw
      have h2 := hM w hw
      exact ⟨by rw [h2]; decide, by rw [h2]; simp only [stepFloor]; decide,
        fun hr => hr.trans (by rw [h2]; simp only [stepFloor]; decide)⟩
  | validationDone ev ansible =>
      obtain ⟨L, hL, hM⟩ := hardening_stateWrites ts ev ansible σ
      rw [newWrites,
        show runStep ts (Step.validationDone ev ansible) σ =
          process_validation_completed ts ev ansible σ from rfl,
        hL, List.drop_left] at hw
      rcases hM w hw with h2 | h2
      · exact ⟨by rw [h2]; decide, by rw [h2]; simp only [stepFloor]; decide,
          fun hr => hr.trans (by rw [h2]; simp only [stepFloor]; decide)⟩
      · exact ⟨by rw [h2]; decide, by rw [h2]; simp only [stepFloor]; decide,
          fun hr => hr.trans (by rw [h2]; simp only [stepFloor]; decide)⟩
  | monitor devs =>
      rw [newWrites,
        show runStep ts (Step.monitor devs) σ = monitoring_cycle ts devs σ from rfl,
        monitoring_cycle_stateWrites, List.drop_length] at hw
      exact absurd hw (List.not_mem_nil w)

/-- Witness for `lifecycle_write_targets`: the scenario discovery run
writes `offline → planned`, which sits at the stage's target and moves
forward. -/
theorem lifecycle_write_targets_witness :
    ((some STATE_OFFLINE : Option String), STATE_PLANNED) ∈
        newWrites "T1" (.lease lease0) sys0 ∧
    (STATE_PLANNED ≠ STATE_ERROR ∧
      stepFloor (.lease lease0) ≤ rankB (some STATE_PLANNED) ∧
      (rankB (some STATE_OFFLINE) ≤ stepFloor (.lease lease0) →
        rankB (some STATE_OFFLINE) ≤ rankB (some STATE_PLANNED))) :=
  ⟨by decide, lifecycle_write_targets "T1" (.lease lease0) sys0
    ((some STATE_OFFLINE : Option String), STATE_PLANNED) (by decide)⟩

/-- C8: within one monitoring poll cycle, the metrics documents that
get persisted are exactly those of the devices whose own collection
succeeded — one device's failure (no usable IP, or a telemetry pull
that raises) never suppresses a later device's document; and for any
single device whose annotation PATCH to the inventory fails, the
already-persisted metrics document is kept and the inventory is left
exactly as it was. -/
theorem monitoring_per_device_isolation (ts : String)
    (devs : List (Device × RedfishConn × Bool)) (σ : Sys) :
    ((monitoring_cycle ts devs σ).metricsFiles =
      σ.metricsFiles ++ devs.filterMap (fun e => collectedDoc ts e.1 e.2.1)) ∧
    (∀ (device : Device) (conn : RedfishConn) (σ' : Sys),
      collect_metrics ts device conn false σ' =
        { σ' with metricsFiles := σ'.metricsFiles ++ (collectedDoc ts device conn).toList }) := by
  constructor
  · exact monitoring_cycle_metricsFiles ts devs σ
  · intro device conn σ'
    unfold collect_metrics collectedDoc
    cases hip : device.primary_ip4 with
    | none => simp [hip]
    | some addr =>
        simp only [hip]
        by_cases hmt : ((pySplitFirst addr '/' == "") = true)
        · rw [if_pos hmt, if_pos hmt]
          simp
        · rw [if_neg hmt, if_neg hmt]
          cases hm : get_all_metrics conn with
          | error e => simp [hm]
          | ok m => simp [hm]

/-- C7: the validation callback returns 400 with no inventory mutation
when the body or `device_id` is absent (or falsy), 404 with no
inventory mutation when `device_id` does not resolve to an inventory
device, and on success a 200 response carrying status, device_id and
device_name. -/
theorem callback_api_contract (ts : String) (σ : Sys) :
    ((validation_report ts none σ).1.code = 400 ∧ (validation_report ts none σ).2 = σ) ∧
    (∀ data : CallbackBody, truthy data.device_id = false →
      (validation_report ts (some data) σ).1.code = 400 ∧
      (validation_report ts (some data) σ).2 = σ) ∧
    (∀ data : CallbackBody, truthy data.device_id = true →
      (pyParseNat (data.device_id.getD "")).bind (findDevice σ.inv) = none →
      (validation_report ts (some data) σ).1.code = 404 ∧
      (validation_report ts (some data) σ).2 = σ) ∧
    (∀ (data : CallbackBody) (did : Nat) (device : Device),
      truthy data.device_id = true →
      pyParseNat (data.device_id.getD "") = some did →
      findDevice σ.inv did = some device →
      (validation_report ts (some data) σ).1 =
        { code := 200, status := some "success", resp_device_id := data.device_id
          resp_device_name := some device.name }) := by
  refine ⟨⟨rfl, rfl⟩, ?_, ?_, ?_⟩
  · intro data h
    unfold validation_report
    dsimp only
    rw [h]
    exact ⟨rfl, rfl⟩
  · intro data h hres
    unfold validation_report
    dsimp only
    rw [h]
    cases hN : pyParseNat (data.device_id.getD "") with
    | none => exact ⟨rfl, rfl⟩
    | some did =>
        rw [hN] at hres
        have hres2 : findDevice σ.inv did = none := hres
        simp only [hN, hres2]
        exact ⟨rfl, rfl⟩
  · intro data did device h hN hdev
    unfold validation_report
    dsimp only
    rw [h]
    simp only [hN, hdev]
    rfl

/-- Witness for `callback_api_contract`: a missing body, a bodiless
`device_id`, an unresolvable `device_id` and the scenario's successful
report, all against the scenario state. -/
theorem callback_api_contract_witness :
    ((validation_report "T3" none sys0).1.code = 400 ∧
      (validation_report "T3" none sys0).2 = sys0) ∧
    (truthy (CallbackBody.device_id {}) = false ∧
      (validation_report "T3" (some {}) sys0).1.code = 400 ∧
      (validation_report "T3" (some {}) sys0).2 = sys0) ∧
    (truthy cbBody404.device_id = true ∧
      (pyParseNat (cbBody404.device_id.getD "")).bind (findDevice sys0.inv) = none ∧
      (validation_report "T3" (some cbBody404) sys0).1.code = 404 ∧
      (validation_report "T3" (some cbBody404) sys0).2 = sys0) ∧
    (truthy cbBody0.device_id = true ∧
      pyParseNat (cbBody0.device_id.getD "") = some 1 ∧
      findDevice sys0.inv 1 = some srv0 ∧
      (validation_report "T3" (some cbBody0) sys0).1 =
        { code := 200, status := some "success", resp_device_id := cbBody0.device_id
          resp_device_name := some srv0.name }) := by
  obtain ⟨h1, h2, h3, h4⟩ := callback_api_contract "T3" sys0
  refine ⟨h1, ⟨rfl, h2 {} rfl⟩, ⟨rfl, by decide, h3 cbBody404 rfl (by decide)⟩,
    ⟨rfl, by decide, by decide, h4 cbBody0 1 srv0 rfl (by decide) (by decide)⟩⟩

/-- C5: for every validation-completed event whose device resolves with
a BMC interface and a usable primary IP, a failed configuration run
leaves the device in `hardening` with `hardened_at` untouched and
publishes nothing, while a successful run advances the device to
`staged`, stamps `hardened_at`, and publishes exactly one
`hardening_completed` event. -/
theorem hardening_ansible_outcome (ts : String) (ev : PipeEvent) (ansible : AnsibleOutcome)
    (σ : Sys) (did : Nat) (device : Device) (addr : String)
    (hdid : ev.device_id = some did)
    (hdev : findDevice σ.inv did = some device)
    (hbmc : (findBmcIface device).isSome = true)
    (hip : device.primary_ip4 = some addr)
    (hne : (pySplitFirst addr '/' == "") = false) :
    (run_ansible_playbook ansible = false →
      (findDevice (process_validation_completed ts ev ansible σ).inv did).map
          Device.lifecycle_state = some (some STATE_HARDENING) ∧
      (findDevice (process_validation_completed ts ev ansible σ).inv did).map
          Device.hardened_at = some device.hardened_at ∧
      (process_validation_completed ts ev ansible σ).queues = σ.queues) ∧
    (run_ansible_playbook ansible = true →
      (findDevice (process_validation_completed ts ev ansible σ).inv did).map
          Device.lifecycle_state = some (some STATE_STAGED) ∧
      (findDevice (process_validation_completed ts ev ansible σ).inv did).map
          Device.hardened_at = some (some ts) ∧
      (process_validation_completed ts ev ansible σ).queues = σ.queues ++
        [(QUEUE_HARDENING_COMPLETED,
          { event_type := "hardening_completed", timestamp := ts
            device_id := some did, device_name := ev.device_name })]) := by
  obtain ⟨bi, hbi⟩ := Option.isSome_iff_exists.mp hbmc
  have hcond : ¬ ((pySplitFirst addr '/' == "") = true) := by simp [hne]
  have hset := update_device_eq σ did { lifecycle_state := some STATE_HARDENING } device hdev
  dsimp only at hset
  have hfd1 := findDevice_after_update σ _ did
    { lifecycle_state := some STATE_HARDENING } device hdev hset
  have hq1 := update_device_queues σ _ did { lifecycle_state := some STATE_HARDENING } hset
  unfold process_validation_completed
  simp only [hdid, hdev, hbi, hip]
  rw [if_neg hcond]
  unfold set_device_state
  rw [hset]
  simp only [Option.getD_some]
  constructor
  · intro hfail
    rw [hfail]
    rw [if_pos (show ((!false : Bool) = true) from rfl)]
    rw [hfd1]
    exact ⟨rfl, rfl, hq1⟩
  · intro hok
    rw [hok]
    rw [if_neg (show ¬ ((!true : Bool) = true) from by simp)]
    have hset2 := update_device_eq _ did
      { lifecycle_state := some STATE_STAGED, hardened_at := some ts }
      (applyPatch device { lifecycle_state := some STATE_HARDENING }) hfd1
    dsimp only at hset2
    have hfd2 := findDevice_after_update _ _ did
      { lifecycle_state := some STATE_STAGED, hardened_at := some ts }
      (applyPatch device { lifecycle_state := some STATE_HARDENING }) hfd1 hset2
    have hq2 := update_device_queues _ _ did
      { lifecycle_state := some STATE_STAGED, hardened_at := some ts } hset2
    rw [hset2]
    simp only [Option.getD_some, publish]
    rw [hfd2]
    exact ⟨rfl, rfl, trivial⟩

/-- Witness for `hardening_ansible_outcome`: the scenario device with a
timed-out run stays in `hardening` with nothing published; with a
zero-exit run it reaches `staged` and one `hardening_completed` event. -/
theorem hardening_ansible_outcome_witness :
    (run_ansible_playbook .timeout = false ∧
      (findDevice (process_validation_completed "T5" valEv0 .timeout sys0).inv 1).map
          Device.lifecycle_state = some (some STATE_HARDENING) ∧
      (process_validation_completed "T5" valEv0 .timeout sys0).queues = sys0.queues) ∧
    (run_ansible_playbook (.completed 0) = true ∧
      (findDevice (process_validation_completed "T5" valEv0 (.completed 0) sys0).inv 1).map
          Device.lifecycle_state = some (some STATE_STAGED) ∧
      (process_validation_completed "T5" valEv0 (.completed 0) sys0).queues =
        sys0.queues ++ [(QUEUE_HARDENING_COMPLETED,
          { event_type := "hardening_completed", timestamp := "T5"
            device_id := some 1, device_name := valEv0.device_name })]) := by
  have hf := hardening_ansible_outcome "T5" valEv0 .timeout sys0 1 srv0 "10.23.0.50/24"
    rfl rfl (by decide) rfl (by decide)
  have hs := hardening_ansible_outcome "T5" valEv0 (.completed 0) sys0 1 srv0 "10.23.0.50/24"
    rfl rfl (by decide) rfl (by decide)
  obtain ⟨hstate, _, hqueue⟩ := hf.1 rfl
  obtain ⟨hstate2, _, hqueue2⟩ := hs.2 rfl
  exact ⟨⟨rfl, hstate, hqueue⟩, ⟨rfl, hstate2, hqueue2⟩⟩

theorem collect_metrics_patches_device (ts : String) (device : Device) (conn : RedfishConn)
    (σ : Sys) (addr : String) (m : AllMetrics) (d0 : Device)
    (hip : device.primary_ip4 = some addr)
    (hne : (pySplitFirst addr '/' == "") = false)
    (hm : get_all_metrics conn = .ok m)
    (hdev : findDevice σ.inv device.id = some d0) :
    findDevice (collect_metrics ts device conn true σ).inv device.id =
      some (applyPatch d0 { last_monitored_at := some ts
                            last_power_watts := some m.power.consumed_watts }) := by
  unfold collect_metrics
  simp only [hip]
  rw [if_neg (by simp [hne])]
  simp only [hm]
  rw [if_pos trivial]
  have hdev1 : findDevice ({ σ with metricsFiles := σ.metricsFiles ++
      [{ device_id := device.id, device_name := device.name, timestamp := ts
         cpu := m.cpu, memory := m.memory, power := m.power
         thermal := m.thermal }] } : Sys).inv device.id = some d0 := hdev
  have hu := update_device_eq _ device.id
    { last_monitored_at := some ts, last_power_watts := some m.power.consumed_watts }
    d0 hdev1
  dsimp only at hu
  rw [hu]
  simp only [Option.getD_some]
  exact findDevice_after_update _ _ device.id _ d0 hdev1 hu

/-- C10: the power and thermal readers of the Redfish client are total —
on any error, unreachable endpoint included, they return zeroed
defaults instead of raising; consequently a monitoring pass whose
system endpoint answers but whose power/thermal endpoints fail is
indistinguishable from one that genuinely reads all-zero telemetry: it
persists a metrics document with zero readings and writes
`last_power_watts = 0` to the device. -/
theorem redfish_zero_default_metrics :
    (get_power_metrics (.error ()) = zeroPower) ∧
    (get_thermal_metrics (.error ()) = zeroThermal) ∧
    (∀ (info : SystemInfo) (ts : String) (device : Device) (netbox_ok : Bool) (σ : Sys),
      collect_metrics ts device (connPowerDown info) netbox_ok σ =
        collect_metrics ts device (connZeroReadings info) netbox_ok σ) ∧
    (∀ (ts : String) (device : Device) (σ : Sys) (info : SystemInfo) (addr : String)
        (d0 : Device),
      device.primary_ip4 = some addr →
      (pySplitFirst addr '/' == "") = false →
      findDevice σ.inv device.id = some d0 →
      ∃ doc, (collect_metrics ts device (connPowerDown info) true σ).metricsFiles =
          σ.metricsFiles ++ [doc] ∧ doc.power = zeroPower ∧ doc.thermal = zeroThermal ∧
        (findDevice (collect_metrics ts device (connPowerDown info) true σ).inv
            device.id).map Device.last_power_watts = some (some 0)) := by
  refine ⟨rfl, rfl, fun info ts device netbox_ok σ => rfl, ?_⟩
  intro ts device σ info addr d0 hip hne hdev
  have hm : get_all_metrics (connPowerDown info) = .ok
      { cpu := { count := info.cpu_count.getD 0, model := info.cpu_model.getD "Unknown"
                 health := info.cpu_health.getD "Unknown" }
        memory := { total_gb := info.memory_total_gb.getD 0
                    health := info.memory_health.getD "Unknown" }
        power := zeroPower, thermal := zeroThermal } := rfl
  refine ⟨{ device_id := device.id, device_name := device.name, timestamp := ts
            cpu := { count := info.cpu_count.getD 0, model := info.cpu_model.getD "Unknown"
                     health := info.cpu_health.getD "Unknown" }
            memory := { total_gb := info.memory_total_gb.getD 0
                        health := info.memory_health.getD "Unknown" }
            power := zeroPower, thermal := zeroThermal }, ?_, rfl, rfl, ?_⟩
  · rw [collect_metrics_metricsFiles]
    have hdoc : collectedDoc ts device (connPowerDown info) = some
        { device_id := device.id, device_name := device.name, timestamp := ts
          cpu := { count := info.cpu_count.getD 0, model := info.cpu_model.getD "Unknown"
                   health := info.cpu_health.getD "Unknown" }
          memory := { total_gb := info.memory_total_gb.getD 0
                      health := info.memory_health.getD "Unknown" }
          power := zeroPower, thermal := zeroThermal } := by
      unfold collectedDoc
      simp only [hip]
      rw [if_neg (by simp [hne])]
      simp only [hm]
    rw [hdoc]
    rfl
  · rw [collect_metrics_patches_device ts device (connPowerDown info) σ addr _ d0 hip hne hm hdev]
    rfl

/-- Witness for `redfish_zero_default_metrics`: the scenario device
polled through a controller whose power and thermal endpoints fail. -/
theorem redfish_zero_default_metrics_witness :
    (srv0.primary_ip4 = some "10.23.0.50/24" ∧
      (pySplitFirst "10.23.0.50/24" '/' == "") = false ∧
      findDevice sys0.inv srv0.id = some srv0) ∧
    (∃ doc, (collect_metrics "T7" srv0 (connPowerDown infoNone) true sys0).metricsFiles =
        sys0.metricsFiles ++ [doc] ∧ doc.power = zeroPower ∧ doc.thermal = zeroThermal ∧
      (findDevice (collect_metrics "T7" srv0 (connPowerDown infoNone) true sys0).inv
          srv0.id).map Device.last_power_watts = some (some 0)) :=
  ⟨⟨rfl, by decide, rfl⟩,
    redfish_zero_default_metrics.2.2.2 "T7" srv0 sys0 infoNone "10.23.0.50/24" srv0
      rfl (by decide) rfl⟩

end PoC
